import Mathlib

/-!
Shallow embedding of the SmartAlloc housing-allocation core (Django backend):
feature engineering (`apps/allocation/ml_models/features.py`, `features_v2.py`),
the priority predictor (`predictor.py`), and the allocation engine
(`allocation_engine.py`) together with the model classes it mutates
(`apps/hostels/models.py`, `apps/applications/models.py`,
`apps/allocation/models.py`).

Python floats are modelled as rationals; the database is a record of tables
(lists of rows); every operation is a pure state-passing function.  Python
exceptions are modelled with `Except` over an explicit error type.
-/

namespace SmartAlloc

/-! ## Constants (`utils/constants.py`) -/

def MIN_PRIORITY_SCORE : ℚ := 0
def MAX_PRIORITY_SCORE : ℚ := 100
def MIN_GPA : ℚ := 0
def MAX_GPA : ℚ := 5

/-- The `ALLOCATION_CONSTRAINTS` dict. -/
structure AllocationConstraints where
  gender_strict : Bool
  disability_priority : Bool
  seniority_boost : ℚ
  max_distance_cap : ℚ
  room_capacity_strict : Bool
  default_room_capacity : ℕ
  max_occupancy_buffer : ℕ

def ALLOCATION_CONSTRAINTS : AllocationConstraints :=
  { gender_strict := true
  , disability_priority := true
  , seniority_boost := 6/5        -- 1.2
  , max_distance_cap := 500
  , room_capacity_strict := true
  , default_room_capacity := 4
  , max_occupancy_buffer := 0 }

/-- The `PRIORITY_WEIGHTS` dict. -/
structure PriorityWeights where
  gpa : ℚ
  distance : ℚ
  level : ℚ
  need_based : ℚ

def PRIORITY_WEIGHTS : PriorityWeights :=
  { gpa := 2/5, distance := 3/10, level := 1/5, need_based := 1/10 }

/-! ## Python-semantics helpers -/

/-- Python exceptions that the embedded code can raise. -/
inductive PyExc where
  /-- `KeyError` from subscripting a dict with a missing key. -/
  | keyError (key : String)
  /-- `TypeError`, e.g. subscripting a model instance that is not a dict. -/
  | typeError
  /-- `utils.exceptions.ModelNotTrainedError` (subclass of `MLModelError`). -/
  | modelNotTrainedError (msg : String)
  /-- `django.db.IntegrityError` from violating a unique constraint. -/
  | integrityError
deriving DecidableEq

/-- Python truthiness of an optional float: `None` and `0.0` are falsy. -/
def pyTruthyQ : Option ℚ → Bool
  | none => false
  | some x => x ≠ 0

/-- `value or default` on an optional float (`None` and `0.0` fall back). -/
def pyOrQ (v : Option ℚ) (d : ℚ) : ℚ :=
  match v with
  | none => d
  | some x => if x = 0 then d else x

/-- Python 3 `round` rounds half to even (banker's rounding). -/
def roundHalfEven (x : ℚ) : ℤ :=
  if x - ⌊x⌋ < 1/2 then ⌊x⌋
  else if 1/2 < x - ⌊x⌋ then ⌊x⌋ + 1
  else if Even ⌊x⌋ then ⌊x⌋ else ⌊x⌋ + 1

/-- `round(x, 2)`. -/
def pyRound2 (x : ℚ) : ℚ := (roundHalfEven (x * 100) : ℚ) / 100

/-- `round(x, 4)`. -/
def pyRound4 (x : ℚ) : ℚ := (roundHalfEven (x * 10000) : ℚ) / 10000

/-- A Python dict of named float features. -/
abbrev FeatureDict := List (String × ℚ)

/-- Dict subscription `d[k]`: raises `KeyError` when the key is absent. -/
def dictGet (d : FeatureDict) (k : String) : Except PyExc ℚ :=
  match d.find? (fun kv => kv.1 == k) with
  | some kv => .ok kv.2
  | none => .error (.keyError k)

/-- `d.get(k, default)`. -/
def dictGetD (d : FeatureDict) (k : String) (dflt : ℚ) : ℚ :=
  match d.find? (fun kv => kv.1 == k) with
  | some kv => kv.2
  | none => dflt

/-- Lookup in an int-keyed dict with a default (`scores.get(a.id, 0)`). -/
def scoresGetD (scores : List (ℕ × ℚ)) (k : ℕ) (dflt : ℚ) : ℚ :=
  match scores.find? (fun kv => kv.1 == k) with
  | some kv => kv.2
  | none => dflt

/-! ## Stable sorting (CPython `list.sort` / `sorted` are stable) -/

/-- Insert `x` after every element `y` of `l` with `lt y x`, before the rest.
With a strict comes-before test `lt` this is the insertion step of a stable
ascending sort. -/
def insertBy {α : Type _} (lt : α → α → Bool) (x : α) : List α → List α
  | [] => [x]
  | y :: ys => if lt y x then y :: insertBy lt x ys else x :: y :: ys

/-- Stable insertion sort: `sortBy lt l` reorders `l` so that `lt b a` never
holds for `a` before `b`, keeping the original order of ties. -/
def sortBy {α : Type _} (lt : α → α → Bool) : List α → List α
  | [] => []
  | x :: xs => insertBy lt x (sortBy lt xs)

/-! ## Student profiles (`apps/students/models.py`, class `StudentProfile`) -/

/-- The fields of `StudentProfile` that the allocation core reads.
`full_name` stands for `user.full_name`.  Note the level field is named
`level` — the class has no `current_level` attribute — and there is no `get`
attribute either (only `get_priority_factors`). -/
structure StudentProfile where
  id : ℕ
  full_name : String
  gender : String
  level : ℕ
  current_gpa : Option ℚ
  distance_from_campus : Option ℚ
  disability_status : Bool
  financial_aid_status : Bool
deriving DecidableEq

/-! ## Feature engineering v1 (`ml_models/features.py`, class `FeatureEngineer`) -/

namespace FeatureEngineer

/-- `self.max_distance = ALLOCATION_CONSTRAINTS['max_distance_cap']`. -/
def max_distance : ℚ := ALLOCATION_CONSTRAINTS.max_distance_cap

/-- `normalize_gpa`: linear scale of `[MIN_GPA, MAX_GPA]` onto `[0,1]`;
`None` and values below the minimum give 0. -/
def normalize_gpa : Option ℚ → ℚ
  | none => 0
  | some gpa =>
    if gpa < MIN_GPA then 0
    else max 0 (min 1 ((gpa - MIN_GPA) / (MAX_GPA - MIN_GPA)))

/-- `encode_level`: `{100: 1, 200: 2, 300: 3, 400: 4, 500: 5}.get(level, 1)`. -/
def encode_level (level : ℕ) : ℕ :=
  if level = 100 then 1
  else if level = 200 then 2
  else if level = 300 then 3
  else if level = 400 then 4
  else if level = 500 then 5
  else 1

/-- `transform_distance`: `None` or negative gives 0, otherwise cap at
`max_distance` and normalize to `[0,1]`. -/
def transform_distance : Option ℚ → ℚ
  | none => 0
  | some distance =>
    if distance < 0 then 0
    else (min distance max_distance) / max_distance

/-- `encode_binary`: booleans to `{0, 1}`. -/
def encode_binary (value : Bool) : ℕ := if value then 1 else 0

/-- `calculate_seniority_score`: `level_encoded * (1 + gpa_normalized)`,
where the gpa term is 0 when `gpa` is falsy (`None` or `0.0`). -/
def calculate_seniority_score (level : ℕ) (gpa : Option ℚ) : ℚ :=
  let level_encoded := encode_level level
  let gpa_normalized := if pyTruthyQ gpa then normalize_gpa gpa else 0
  (level_encoded : ℚ) * (1 + gpa_normalized)

/-- The plain dict accepted by `FeatureEngineer.extract_features_from_dict`;
`none` models an absent key. -/
structure V1Data where
  gpa : Option ℚ
  level : Option ℕ
  distance : Option ℚ
  disability : Option Bool
  financial_aid : Option Bool
deriving DecidableEq

/-- `extract_features_from_dict` of the v1 engineer: the five model features
plus the auxiliary seniority score, with the documented defaults. -/
def extract_features_from_dict (data : V1Data) : FeatureDict :=
  [ ("gpa_normalized", normalize_gpa data.gpa)
  , ("level_encoded", (encode_level (data.level.getD 100) : ℚ))
  , ("distance_transformed", transform_distance data.distance)
  , ("disability_flag", (encode_binary (data.disability.getD false) : ℚ))
  , ("financial_aid_flag", (encode_binary (data.financial_aid.getD false) : ℚ))
  , ("seniority_score", calculate_seniority_score (data.level.getD 100) data.gpa) ]

end FeatureEngineer

/-- The dynamically-typed `features` value inside `PriorityPredictor.predict`:
either a plain dict of floats, or — when a live profile object was passed in —
the unextracted object itself (a `StudentProfile` has no `get` attribute, so
the shape dispatch takes the `features = student_features` branch). -/
inductive PyFeatures where
  | dict (d : FeatureDict)
  | obj (p : StudentProfile)

/-- `generate_synthetic_priority_score` (`features.py`): the domain-knowledge
formula, 40% gpa + 30% distance + 20% level + 10% need, clamped to `[0,100]`.
Subscripting raises `KeyError` when a feature key is absent and `TypeError`
when the value is an unextracted model instance. -/
def generate_synthetic_priority_score : PyFeatures → Except PyExc ℚ
  | .obj _ => .error .typeError
  | .dict features => do
    let gpan ← dictGet features "gpa_normalized"
    let gpa_score := gpan * PRIORITY_WEIGHTS.gpa * 100
    let dt ← dictGet features "distance_transformed"
    let distance_score := dt * PRIORITY_WEIGHTS.distance * 100
    let le ← dictGet features "level_encoded"
    let level_score := (le / 5) * PRIORITY_WEIGHTS.level * 100
    let df ← dictGet features "disability_flag"
    let ff ← dictGet features "financial_aid_flag"
    let need_score := (if df + ff > 0 then (1 : ℚ) else 0) * PRIORITY_WEIGHTS.need_based * 100
    let total_score := gpa_score + distance_score + level_score + need_score
    return max 0 (min 100 total_score)

/-! ## Feature engineering v2 (`ml_models/features_v2.py`, `FeatureEngineerV2`) -/

/-- A plain key-value record as consumed by
`FeatureEngineerV2.extract_features_from_dict`; `none` models an absent key.
The paired fields model the primary/alias key fallbacks in the source. -/
structure StudentRecord where
  id : Option ℕ
  level : Option ℚ
  current_level : Option ℚ
  gpa : Option ℚ
  current_gpa : Option ℚ
  distance : Option ℚ
  distance_km : Option ℚ
  distance_from_campus : Option ℚ
  disability : Option Bool
  disability_status : Option Bool
  medical_condition : Option Bool
  chronic_medical_condition : Option Bool
  financial_need : Option Bool
  financial_aid_status : Option Bool
  first_generation : Option Bool
  first_generation_student : Option Bool
  international : Option Bool
  international_student : Option Bool
  previous_housing : Option Bool
  previous_housing_status : Option Bool
  semesters_completed : Option ℚ
  academic_probation : Option Bool
  academic_probation_status : Option Bool
  family_size : Option ℚ
  family_income_bracket : Option ℚ
  employment_hours : Option ℚ
  employment_hours_per_week : Option ℚ
  gender : Option String
deriving DecidableEq

/-- A record with every key absent. -/
def emptyStudentRecord : StudentRecord :=
  ⟨none, none, none, none, none, none, none, none, none, none, none, none,
   none, none, none, none, none, none, none, none, none, none, none, none,
   none, none, none, none⟩

namespace FeatureEngineerV2

/-- `FEATURE_ORDER`: the 17-feature schema, order fixed by training. -/
def FEATURE_ORDER : List String :=
  [ "level", "gpa", "distance_km", "disability", "medical_condition"
  , "financial_need", "first_generation", "international", "previous_housing"
  , "semesters_completed", "academic_probation", "family_size"
  , "family_income_bracket", "employment_hours", "gender_M", "gender_F"
  , "gender_Other" ]

/-- `self.max_distance = ALLOCATION_CONSTRAINTS.get('max_distance_cap', 500)`. -/
def max_distance : ℚ := ALLOCATION_CONSTRAINTS.max_distance_cap

/-- `extract_features_from_profile` on a live `StudentProfile`.  Each line
mirrors a `getattr(student_profile, name, default) or default` read:
`current_level`, `chronic_medical_condition`, `first_generation_student`,
`international_student`, `previous_housing_status`, `semesters_completed`,
`academic_probation_status`, `family_size`, `family_income_bracket` and
`employment_hours_per_week` are not attributes of `StudentProfile`, so those
reads always yield the `getattr` default; `or` additionally replaces falsy
(`None` / `0.0`) present values by the default. -/
def extract_features_from_profile (student_profile : StudentProfile) : FeatureDict :=
  let level : ℚ := 100
  let gpa : ℚ := pyOrQ student_profile.current_gpa 3
  let distance : ℚ := pyOrQ student_profile.distance_from_campus 50
  let disability : Bool := student_profile.disability_status
  let medical_condition : Bool := false
  let financial_need : Bool := student_profile.financial_aid_status
  let first_generation : Bool := false
  let international : Bool := false
  let previous_housing : Bool := false
  let semesters_completed : ℚ := 0
  let academic_probation : Bool := false
  let family_size : ℚ := 4
  let family_income_bracket : ℚ := 5
  let employment_hours : ℚ := 0
  let gender : String :=
    if student_profile.gender = "M" ∨ student_profile.gender = "F" ∨
        student_profile.gender = "Other" then student_profile.gender else "M"
  [ ("level", level)
  , ("gpa", gpa)
  , ("distance_km", min distance max_distance)
  , ("disability", if disability then 1 else 0)
  , ("medical_condition", if medical_condition then 1 else 0)
  , ("financial_need", if financial_need then 1 else 0)
  , ("first_generation", if first_generation then 1 else 0)
  , ("international", if international then 1 else 0)
  , ("previous_housing", if previous_housing then 1 else 0)
  , ("semesters_completed", semesters_completed)
  , ("academic_probation", if academic_probation then 1 else 0)
  , ("family_size", family_size)
  , ("family_income_bracket", family_income_bracket)
  , ("employment_hours", employment_hours)
  , ("gender_M", if gender = "M" then 1 else 0)
  , ("gender_F", if gender = "F" then 1 else 0)
  , ("gender_Other", if gender = "Other" then 1 else 0) ]

/-- `extract_features_from_dict` of the v2 engineer: nested
`data.get(primary, data.get(alias, default))` reads; the distance value is
capped at `max_distance` (the source re-assigns the capped value after
building the dict, which is equivalent to capping at the field). -/
def extract_features_from_dict (data : StudentRecord) : FeatureDict :=
  [ ("level", (data.level <|> data.current_level).getD 100)
  , ("gpa", (data.gpa <|> data.current_gpa).getD 3)
  , ("distance_km",
      min ((data.distance <|> data.distance_km <|> data.distance_from_campus).getD 50)
        max_distance)
  , ("disability", if (data.disability <|> data.disability_status).getD false then 1 else 0)
  , ("medical_condition",
      if (data.medical_condition <|> data.chronic_medical_condition).getD false then 1 else 0)
  , ("financial_need",
      if (data.financial_need <|> data.financial_aid_status).getD false then 1 else 0)
  , ("first_generation",
      if (data.first_generation <|> data.first_generation_student).getD false then 1 else 0)
  , ("international",
      if (data.international <|> data.international_student).getD false then 1 else 0)
  , ("previous_housing",
      if (data.previous_housing <|> data.previous_housing_status).getD false then 1 else 0)
  , ("semesters_completed", data.semesters_completed.getD 0)
  , ("academic_probation",
      if (data.academic_probation <|> data.academic_probation_status).getD false then 1 else 0)
  , ("family_size", data.family_size.getD 4)
  , ("family_income_bracket", data.family_income_bracket.getD 5)
  , ("employment_hours",
      (data.employment_hours <|> data.employment_hours_per_week).getD 0)
  , ("gender_M", if data.gender.getD "M" = "M" then 1 else 0)
  , ("gender_F", if data.gender.getD "M" = "F" then 1 else 0)
  , ("gender_Other", if data.gender.getD "M" = "Other" then 1 else 0) ]

/-- `prepare_model_input`: the 17 features in `FEATURE_ORDER`; raises
`KeyError` on a missing key and `TypeError` on an unextracted object. -/
def prepare_model_input : PyFeatures → Except PyExc (List ℚ)
  | .obj _ => .error .typeError
  | .dict f => FEATURE_ORDER.mapM (dictGet f)

end FeatureEngineerV2

/-! ## Priority predictor (`ml_models/predictor.py`, `PriorityPredictor`) -/

/-- A loaded scikit-learn regressor: its prediction function, the optional
`estimators_` of an ensemble, and the optional `feature_importances_`. -/
structure MLModel where
  predictFn : List ℚ → ℚ
  estimators : Option (List (List ℚ → ℚ))
  feature_importances : Option (List ℚ)

/-- The predictor wrapper: `self.model` is `none` when no artifact loaded. -/
structure PriorityPredictor where
  model : Option MLModel
  scaler : Option (List ℚ → List ℚ)
  model_version : String

/-- The dict returned by a successful prediction. -/
structure PredictionResult where
  priority_score : ℚ
  confidence : ℚ
  feature_importance : FeatureDict
  model_version : String
  scoring_method : String
  raw_score : ℚ
deriving DecidableEq, Inhabited

/-- `_calculate_confidence`: variance across ensemble members, normalized
against a reference variance of 100; fixed 0.9 for non-ensemble models. -/
def calculate_confidence (pred : PriorityPredictor) (X : List ℚ) : ℚ :=
  match pred.model with
  | some mdl =>
    match mdl.estimators with
    | some trees =>
      let predictions := trees.map (fun t => t X)
      let n : ℚ := predictions.length
      let mean := predictions.sum / n
      let variance := (predictions.map (fun p => (p - mean) ^ 2)).sum / n
      max 0 (1 - variance / 100)
    | none => 9/10
  | none => 9/10

/-- The fixed default importance split (`_get_feature_importance` fallback). -/
def default_feature_importance : FeatureDict :=
  [ ("gpa_normalized", 1/5), ("level_encoded", 1/5), ("distance_transformed", 1/5)
  , ("disability_flag", 1/5), ("financial_aid_flag", 1/5) ]

/-- `_get_feature_importance`: native importances zipped with the 17 canonical
names (rounded to 4 places), or the fixed default split. -/
def get_feature_importance (pred : PriorityPredictor) : FeatureDict :=
  match pred.model with
  | some mdl =>
    match mdl.feature_importances with
    | some importances =>
      (FeatureEngineerV2.FEATURE_ORDER.zip importances).map
        (fun ni => (ni.1, pyRound4 ni.2))
    | none => default_feature_importance
  | none => default_feature_importance

/-- `_ml_predict`: prepare input, scale, predict, clamp to
`[MIN_PRIORITY_SCORE, MAX_PRIORITY_SCORE]`, round. -/
def ml_predict (pred : PriorityPredictor) (mdl : MLModel) (features : PyFeatures) :
    Except PyExc PredictionResult := do
  let X0 ← FeatureEngineerV2.prepare_model_input features
  let X := match pred.scaler with
    | some s => s X0
    | none => X0
  let raw_score := mdl.predictFn X
  let priority_score := max MIN_PRIORITY_SCORE (min MAX_PRIORITY_SCORE raw_score)
  let confidence := calculate_confidence pred X
  let feature_importance := get_feature_importance pred
  return { priority_score := pyRound2 priority_score
         , confidence := pyRound4 confidence
         , feature_importance := feature_importance
         , model_version := pred.model_version
         , scoring_method := "ml_model"
         , raw_score := pyRound2 raw_score }

/-- `_domain_knowledge_predict`: the synthetic formula with fixed confidence
0.85 and the fixed contribution split. -/
def domain_knowledge_predict (features : PyFeatures) : Except PyExc PredictionResult := do
  let score ← generate_synthetic_priority_score features
  return { priority_score := pyRound2 score
         , confidence := 85/100
         , feature_importance :=
             [ ("gpa_normalized", 2/5), ("distance_transformed", 3/10)
             , ("level_encoded", 1/5), ("disability_flag", 1/20)
             , ("financial_aid_flag", 1/20) ]
         , model_version := "domain_knowledge_v1"
         , scoring_method := "domain_knowledge"
         , raw_score := pyRound2 score }

/-- The two input shapes `predict` is called with: a live `StudentProfile`
(engine path) or a plain key-value record (API path). -/
inductive PredictInput where
  | profile (p : StudentProfile)
  | record (d : StudentRecord)

/-- The shape dispatch at the top of `predict`: a dict has a `get` attribute
but no `current_gpa` attribute, so it is routed to
`extract_features_from_dict`; a `StudentProfile` has no `get` attribute, so it
falls through to `features = student_features` unextracted. -/
def extract_for_predict : PredictInput → PyFeatures
  | .profile p => .obj p
  | .record d => .dict (FeatureEngineerV2.extract_features_from_dict d)

/-- `PriorityPredictor.predict(student_features, use_domain_knowledge)`:
try the ML model when loaded (a failure raises `ModelNotTrainedError` when
fallback is disallowed, else falls through), then the domain-knowledge
fallback when permitted, else raise `ModelNotTrainedError`. -/
def PriorityPredictor.predict (pred : PriorityPredictor) (input : PredictInput)
    (use_domain_knowledge : Bool) : Except PyExc PredictionResult :=
  let features := extract_for_predict input
  match pred.model with
  | some mdl =>
    match ml_predict pred mdl features with
    | .ok r => .ok r
    | .error _ =>
      if !use_domain_knowledge then
        .error (.modelNotTrainedError "ML model prediction failed and fallback disabled")
      else
        domain_knowledge_predict features
  | none =>
    if use_domain_knowledge then
      domain_knowledge_predict features
    else
      .error (.modelNotTrainedError "No trained model available")

/-! ## Hostels, rooms, bed spaces (`apps/hostels/models.py`) -/

/-- The `Hostel` fields the engine reads. -/
structure Hostel where
  id : ℕ
  name : String
  gender_type : String
deriving DecidableEq

/-- The `Room` fields the engine reads and writes. -/
structure Room where
  id : ℕ
  hostel_id : ℕ
  room_number : String
  capacity : ℕ
  current_occupancy : ℕ
  is_accessible : Bool
  is_active : Bool
  is_under_maintenance : Bool
deriving DecidableEq

/-- `Room.available_spaces = capacity - current_occupancy` (Python int
subtraction, so it can go negative). -/
def Room.available_spaces (r : Room) : ℤ :=
  (r.capacity : ℤ) - (r.current_occupancy : ℤ)

/-- `Room.is_full`. -/
def Room.is_full (r : Room) : Bool := decide (r.current_occupancy ≥ r.capacity)

/-- `Room.is_available = is_active and not under maintenance and not full`. -/
def Room.is_available (r : Room) : Bool :=
  r.is_active && !r.is_under_maintenance && !r.is_full

/-- `Room.can_accommodate(count)`. -/
def Room.can_accommodate (r : Room) (count : ℕ) : Bool :=
  decide (r.available_spaces ≥ (count : ℤ))

/-- `Room.increment_occupancy(count)`: guarded by `can_accommodate`; returns
the updated room and whether the increment happened. -/
def Room.increment_occupancy (r : Room) (count : ℕ) : Room × Bool :=
  if r.can_accommodate count then
    ({ r with current_occupancy := r.current_occupancy + count }, true)
  else (r, false)

/-- `Room.decrement_occupancy(count)`: guarded against underflow. -/
def Room.decrement_occupancy (r : Room) (count : ℕ) : Room × Bool :=
  if decide (r.current_occupancy ≥ count) then
    ({ r with current_occupancy := r.current_occupancy - count }, true)
  else (r, false)

/-- A `BedSpace` row, identified by `(room_id, space_number)` (the model's
`unique_together`). -/
structure BedSpace where
  room_id : ℕ
  space_number : ℕ
  is_occupied : Bool
  is_active : Bool
deriving DecidableEq

/-! ## Applications and allocations (`apps/applications/models.py`,
`apps/allocation/models.py`) -/

/-- The `Application` fields the engine reads and writes; `application_date`
is a timestamp tick. -/
structure Application where
  id : ℕ
  student : StudentProfile
  academic_session : String
  preferred_hostel : Option ℕ
  status : String
  priority_score : Option ℚ
  ai_confidence : Option ℚ
  gpa_factor : Option ℚ
  distance_factor : Option ℚ
  level_factor : Option ℚ
  need_factor : Option ℚ
  application_date : ℕ
deriving DecidableEq

/-- An `Allocation` row.  `application` is a `OneToOneField`, so at most one
row per application id may exist (unique constraint); `bed_space` is the
optional FK, modelled by its `(room_id, space_number)` key. -/
structure Allocation where
  application_id : ℕ
  room_id : ℕ
  bed_space : Option (ℕ × ℕ)
  bed_space_number : Option ℕ
  allocated_by : String
  allocated_by_user : Option ℕ
  allocation_reason : String
  admin_override : Bool
  is_active : Bool
  cancellation_reason : String
deriving DecidableEq

/-- A `WaitingList` row; `added_at` is a creation tick (rows are created in
increasing tick order). -/
structure WaitingList where
  application_id : ℕ
  position : ℕ
  is_priority : Bool
  added_at : ℕ
deriving DecidableEq

/-- An `AuditLog` row (only the fields the claims mention). -/
structure AuditLog where
  action : String
  user : Option ℕ
  application_id : Option ℕ
  model_version : String
deriving DecidableEq

/-- The database state: one list of rows per table.  `rooms` is kept in the
model's `Meta.ordering` (hostel, floor, room number), which is the order the
unordered queryset in `_get_available_rooms_by_gender` returns. -/
structure DB where
  hostels : List Hostel
  rooms : List Room
  beds : List BedSpace
  applications : List Application
  allocations : List Allocation
  waiting_list : List WaitingList
  audit_log : List AuditLog
deriving DecidableEq

/-- Look a room up by id (`Room.objects.get`). -/
def DB.findRoom (db : DB) (rid : ℕ) : Option Room :=
  db.rooms.find? (fun r => r.id == rid)

/-- Save an updated room row. -/
def DB.updRoom (db : DB) (rid : ℕ) (f : Room → Room) : DB :=
  { db with rooms := db.rooms.map (fun r => if r.id == rid then f r else r) }

/-- Look a bed space up by its `(room, space_number)` key. -/
def DB.findBed (db : DB) (rid sn : ℕ) : Option BedSpace :=
  db.beds.find? (fun b => b.room_id == rid && b.space_number == sn)

/-- Save an updated bed-space row. -/
def DB.updBed (db : DB) (rid sn : ℕ) (f : BedSpace → BedSpace) : DB :=
  { db with beds := (db.beds.map
      (fun b => if b.room_id == rid && b.space_number == sn then f b else b)) }

/-- Save an updated application row. -/
def DB.updApp (db : DB) (aid : ℕ) (f : Application → Application) : DB :=
  { db with applications := (db.applications.map
      (fun a => if a.id == aid then f a else a)) }

/-- Append an audit-log row (`AuditLog.objects.create`). -/
def DB.addAudit (db : DB) (entry : AuditLog) : DB :=
  { db with audit_log := db.audit_log ++ [entry] }

/-- `room.hostel.gender_type` through the FK. -/
def DB.hostel_gender_type (db : DB) (hid : ℕ) : String :=
  match db.hostels.find? (fun h => h.id == hid) with
  | some h => h.gender_type
  | none => ""

/-- `room.hostel.name` through the FK. -/
def DB.hostel_name (db : DB) (hid : ℕ) : String :=
  match db.hostels.find? (fun h => h.id == hid) with
  | some h => h.name
  | none => ""

/-- The number of occupied bed spaces of a room (the spec's
`occupied_bed_count`). -/
def DB.occupiedBedCount (db : DB) (rid : ℕ) : ℕ :=
  (db.beds.filter (fun b => b.room_id == rid && b.is_occupied)).length

/-- Fetch the room fresh and `increment_occupancy` (ignoring the guard's
return value, as every caller in the source does). -/
def DB.room_increment_occupancy (db : DB) (rid : ℕ) : DB :=
  db.updRoom rid (fun r => (r.increment_occupancy 1).1)

/-- Fetch the room fresh and `decrement_occupancy`. -/
def DB.room_decrement_occupancy (db : DB) (rid : ℕ) : DB :=
  db.updRoom rid (fun r => (r.decrement_occupancy 1).1)

/-- `BedSpace.allocate`: flip `is_occupied` only when the bed is free and
active, then `self.room.increment_occupancy()`; returns whether it happened. -/
def BedSpace.allocate (db : DB) (rid sn : ℕ) : DB × Bool :=
  match db.findBed rid sn with
  | some b =>
    if !b.is_occupied && b.is_active then
      let db1 := db.updBed rid sn (fun c => { c with is_occupied := true })
      (db1.room_increment_occupancy rid, true)
    else (db, false)
  | none => (db, false)

/-- `BedSpace.deallocate`: clear `is_occupied` when set, then
`self.room.decrement_occupancy()`. -/
def BedSpace.deallocate (db : DB) (rid sn : ℕ) : DB × Bool :=
  match db.findBed rid sn with
  | some b =>
    if b.is_occupied then
      let db1 := db.updBed rid sn (fun c => { c with is_occupied := false })
      (db1.room_decrement_occupancy rid, true)
    else (db, false)
  | none => (db, false)

/-- `Allocation.cancel(reason)` on the allocation row of an application:
deactivate the row and, when it has a `bed_space` FK, deallocate that bed.
Batch-created allocations store only `bed_space_number` and leave the FK
null, so cancelling them frees no bed. -/
def Allocation.cancel (db : DB) (application_id : ℕ) (reason : String) : DB :=
  let db1 := { db with allocations := (db.allocations.map
      (fun al => if al.application_id == application_id then
        { al with is_active := false, cancellation_reason := reason } else al)) }
  match db.allocations.find? (fun al => al.application_id == application_id) with
  | some al =>
    match al.bed_space with
    | some bs => (BedSpace.deallocate db1 bs.1 bs.2).1
    | none => db1
  | none => db1

/-- `Application.mark_allocated`. -/
def mark_allocated (db : DB) (application_id : ℕ) : DB :=
  db.updApp application_id (fun a => { a with status := "allocated" })

/-- `Allocation.objects.create`: inserting a second row for the same
application violates the one-to-one unique constraint (`IntegrityError`). -/
def allocation_create (db : DB) (al : Allocation) : Except PyExc DB :=
  if db.allocations.any (fun x => x.application_id == al.application_id) then
    .error .integrityError
  else
    .ok { db with allocations := db.allocations ++ [al] }

/-! ## The allocation engine (`apps/allocation/allocation_engine.py`) -/

/-- The per-student result dataclass `AllocationResult`. -/
structure AllocationResult where
  application_id : ℕ
  student_id : ℕ
  student_name : String
  room_id : ℕ
  room_number : String
  hostel_name : String
  bed_space_number : Option ℕ
  success : Bool
  message : String
deriving DecidableEq

/-- The sort key inside `_get_available_rooms_by_gender`:
`(not is_accessible, room_number)` ascending, i.e. accessible rooms strictly
first, then lower room number. -/
def room_sort_lt (a b : Room) : Bool :=
  (a.is_accessible && !b.is_accessible) ||
  (a.is_accessible == b.is_accessible && decide (a.room_number < b.room_number))

/-- `_get_available_rooms_by_gender`, applied to one gender bucket: active,
non-maintenance, available rooms of hostels with that gender type, stably
sorted by `(not is_accessible, room_number)`. -/
def get_available_rooms_by_gender (db : DB) (gender : String) : List Room :=
  let rooms := db.rooms.filter
    (fun r => r.is_active && !r.is_under_maintenance && r.is_available)
  sortBy room_sort_lt
    (rooms.filter (fun r => db.hostel_gender_type r.hostel_id == gender))

/-- `room.bed_spaces.filter(is_occupied=False, is_active=True).first()`: the
related queryset uses the model's `Meta.ordering`, so the free active bed
with the lowest `space_number` wins. -/
def first_free_bed_space (db : DB) (rid : ℕ) : Option BedSpace :=
  (sortBy (fun a b => decide (a.space_number < b.space_number))
    (db.beds.filter (fun b => b.room_id == rid && !b.is_occupied && b.is_active))).head?

/-- The room scan of `_allocate_single`: the first room in the (narrowed,
sorted) list that has a free active bed space, with that bed. -/
def find_room_and_bed (db : DB) : List Room → Option (Room × BedSpace)
  | [] => none
  | room :: rest =>
    match first_free_bed_space db room.id with
    | some bed => some (room, bed)
    | none => find_room_and_bed db rest

/-- `_allocate_single`: gender buckets, accessibility soft-preference,
preferred-hostel narrowing, room scan, and the `bed_space.allocate()` claim. -/
def allocate_single (db : DB) (application : Application)
    (rooms_by_gender : String → List Room) : DB × AllocationResult :=
  let student := application.student
  let eligible_genders : List String :=
    if student.gender = "M" then ["male", "mixed"]
    else if student.gender = "F" then ["female", "mixed"]
    else ["mixed"]
  let eligible_rooms := (eligible_genders.map rooms_by_gender).flatten
  if eligible_rooms.isEmpty then
    (db, { application_id := application.id
         , student_id := student.id
         , student_name := student.full_name
         , room_id := 0, room_number := "", hostel_name := ""
         , bed_space_number := none, success := false
         , message := "No available rooms matching gender requirements" })
  else
    let eligible_rooms1 :=
      if student.disability_status then
        let accessible_rooms := eligible_rooms.filter (fun r => r.is_accessible)
        if !accessible_rooms.isEmpty then accessible_rooms else eligible_rooms
      else eligible_rooms
    let eligible_rooms2 :=
      match application.preferred_hostel with
      | some hid =>
        let preferred_rooms := eligible_rooms1.filter (fun r => r.hostel_id == hid)
        if !preferred_rooms.isEmpty then preferred_rooms else eligible_rooms1
      | none => eligible_rooms1
    match find_room_and_bed db eligible_rooms2 with
    | none =>
      (db, { application_id := application.id
           , student_id := student.id
           , student_name := student.full_name
           , room_id := 0, room_number := "", hostel_name := ""
           , bed_space_number := none, success := false
           , message := "No available bed spaces" })
    | some (selected_room, selected_bed_space) =>
      let db1 := (BedSpace.allocate db selected_bed_space.room_id
                    selected_bed_space.space_number).1
      (db1, { application_id := application.id
            , student_id := student.id
            , student_name := student.full_name
            , room_id := selected_room.id
            , room_number := selected_room.room_number
            , hostel_name := db.hostel_name selected_room.hostel_id
            , bed_space_number := some selected_bed_space.space_number
            , success := true
            , message := "Allocated to " ++ db.hostel_name selected_room.hostel_id
                ++ ", Room " ++ selected_room.room_number })

/-- The `calculate_priority_scores` loop: predict on the live profile object,
apply the seniority boost and disability floor, clamp, save the application
and audit; a scoring exception records score 0 and continues. -/
def calculate_priority_scores (pred : PriorityPredictor) (db : DB) :
    List Application → DB × List (ℕ × ℚ)
  | [] => (db, [])
  | app :: rest =>
    match pred.predict (.profile app.student) true with
    | .ok prediction =>
      let score0 := prediction.priority_score
      let score1 :=
        if ALLOCATION_CONSTRAINTS.seniority_boost ≠ 0 then
          if app.student.level = 400 ∨ app.student.level = 500 then
            score0 * ALLOCATION_CONSTRAINTS.seniority_boost
          else score0
        else score0
      let score2 :=
        if ALLOCATION_CONSTRAINTS.disability_priority then
          if app.student.disability_status then max score1 95 else score1
        else score1
      let score := max 0 (min 100 score2)
      let fi := prediction.feature_importance
      let db1 := db.updApp app.id (fun a =>
        { a with priority_score := some score
               , ai_confidence := some prediction.confidence
               , gpa_factor := some (dictGetD fi "gpa_normalized" 0 * 40)
               , distance_factor := some (dictGetD fi "distance_transformed" 0 * 30)
               , level_factor := some (dictGetD fi "level_encoded" 0 * 20)
               , need_factor := some (dictGetD fi "disability_flag" 0 * 5 +
                   dictGetD fi "financial_aid_flag" 0 * 5) })
      let db2 := db1.addAudit
        { action := "PRIORITY_CALCULATED", user := none
        , application_id := some app.id, model_version := prediction.model_version }
      let res := calculate_priority_scores pred db2 rest
      (res.1, (app.id, score) :: res.2)
    | .error _ =>
      let res := calculate_priority_scores pred db rest
      (res.1, (app.id, 0) :: res.2)

/-- The comparison realized by
`sorted(key=lambda a: (scores.get(a.id, 0), a.application_date), reverse=True)`:
`a` comes strictly before `b` iff `a`'s key pair is lexicographically
greater — `reverse=True` reverses the date tie-break too. -/
def app_sort_gt (scores : List (ℕ × ℚ)) (a b : Application) : Bool :=
  let sa := scoresGetD scores a.id 0
  let sb := scoresGetD scores b.id 0
  decide (sb < sa) ||
    (decide (sa = sb) && decide (b.application_date < a.application_date))

/-- Step 2 of `allocate_batch`: the stable descending sort. -/
def sort_applications (scores : List (ℕ × ℚ)) (applications : List Application) :
    List Application :=
  sortBy (app_sort_gt scores) applications

/-- One iteration of the `allocate_batch` loop body.  On a successful
placement the source appends the result to `successful` FIRST (line 175) and
only then creates the `Allocation` row (no `bed_space` FK, only the number),
marks the application allocated, fetches the room and increments its
occupancy again, and audits.  When the create raises — the one-to-one
constraint fails because the application already holds an allocation row —
the `except` handler appends the applicant to the waiting list as well, so
that applicant is reported in BOTH lists, while the bed already claimed by
`_allocate_single` stays occupied for the rest of the run.  The two returned
flags say whether the applicant was appended to `successful` and to
`waiting_list`. -/
def allocate_batch_step (rooms_by_gender : String → List Room) (db : DB)
    (app : Application) : DB × AllocationResult × Bool × Bool :=
  let db1 := (allocate_single db app rooms_by_gender).1
  let result := (allocate_single db app rooms_by_gender).2
  if result.success then
    match allocation_create db1
      { application_id := app.id
      , room_id := result.room_id
      , bed_space := none
      , bed_space_number := result.bed_space_number
      , allocated_by := "AI_System"
      , allocated_by_user := none
      , allocation_reason := result.message
      , admin_override := false
      , is_active := true
      , cancellation_reason := "" } with
    | .ok db2 =>
      let db3 := mark_allocated db2 app.id
      let db4 := db3.room_increment_occupancy result.room_id
      let db5 := db4.addAudit
        { action := "ALLOCATION_CREATED", user := none
        , application_id := some app.id, model_version := "" }
      (db5, result, true, false)
    | .error _ => (db1, result, true, true)
  else (db1, result, false, true)

/-- The per-applicant loop of `allocate_batch` over the sorted order: the
result joins `successful` and/or the applicant joins `waiting_list` according
to the step's two flags. -/
def allocate_batch_loop (rooms_by_gender : String → List Room) (db : DB) :
    List Application → DB × List AllocationResult × List Application
  | [] => (db, [], [])
  | app :: rest =>
    let step := allocate_batch_step rooms_by_gender db app
    let recres := allocate_batch_loop rooms_by_gender step.1 rest
    (recres.1,
      (if step.2.2.1 then step.2.1 :: recres.2.1 else recres.2.1),
      (if step.2.2.2 then app :: recres.2.2 else recres.2.2))

/-- Step 5 of `allocate_batch`: `enumerate(waiting_list, 1)` — positions are
1-indexed in the order the waiting list was accumulated, `is_priority` is the
student's disability flag, and rows are created (hence `added_at`-ticked) in
that same order. -/
def waiting_list_entries (waiting : List Application) : List WaitingList :=
  waiting.enum.map (fun p =>
    { application_id := p.2.id
    , position := p.1 + 1
    , is_priority := p.2.student.disability_status
    , added_at := p.1 + 1 })

/-- Persist the waiting-list rows. -/
def create_waiting_list_entries (db : DB) (waiting : List Application) : DB :=
  { db with waiting_list := db.waiting_list ++ waiting_list_entries waiting }

/-- The outcome of a batch run: final state, successful results, waiting
applicants (in that order the source returns the latter two). -/
structure BatchOutcome where
  db : DB
  successful : List AllocationResult
  waiting_list : List Application
deriving DecidableEq

/-- `AllocationEngine.allocate_batch(applications, academic_session)`. -/
def allocate_batch (pred : PriorityPredictor) (db : DB)
    (applications : List Application) (_academic_session : String) : BatchOutcome :=
  let scored := calculate_priority_scores pred db applications
  let sorted_apps := sort_applications scored.2 applications
  let looped := allocate_batch_loop (get_available_rooms_by_gender scored.1) scored.1 sorted_apps
  let db3 := create_waiting_list_entries looped.1 looped.2.2
  { db := db3, successful := looped.2.1, waiting_list := looped.2.2 }

/-- `AllocationEngine.manual_override(application, room, bed_space,
admin_user, reason)`: cancel whatever allocation row exists for the
application, then `Allocation.objects.create(...)` — the cancelled row still
occupies the one-to-one slot, so the insert raises `IntegrityError` whenever
one existed, and `transaction.atomic` rolls the cancellation back (an error
result leaves the caller's state unchanged).  On the no-prior-allocation path
the new row is flagged `admin_override`, the application is marked allocated,
and the chosen bed (or the room counter) is claimed. -/
def manual_override (db : DB) (application : Application) (room : Room)
    (bed_space : Option BedSpace) (admin_user : Option ℕ) (reason : String) :
    Except PyExc (DB × Allocation) :=
  let db1 :=
    match db.allocations.find? (fun al => al.application_id == application.id) with
    | some _ => Allocation.cancel db application.id "Overridden by admin"
    | none => db
  let newAl : Allocation :=
    { application_id := application.id
    , room_id := room.id
    , bed_space := bed_space.map (fun b => (b.room_id, b.space_number))
    , bed_space_number := bed_space.map (fun b => b.space_number)
    , allocated_by := "Admin_User"
    , allocated_by_user := admin_user
    , allocation_reason := reason
    , admin_override := true
    , is_active := true
    , cancellation_reason := "" }
  match allocation_create db1 newAl with
  | .error e => .error e
  | .ok db2 =>
    let db3 := mark_allocated db2 application.id
    let db4 :=
      match bed_space with
      | some b => (BedSpace.allocate db3 b.room_id b.space_number).1
      | none => db3.room_increment_occupancy room.id
    let db5 := db4.addAudit
      { action := "MANUAL_OVERRIDE", user := admin_user
      , application_id := some application.id, model_version := "" }
    .ok (db5, newAl)

/-- The `WaitingList.Meta.ordering = ['is_priority', 'position', 'added_at']`
comparison: all three ascending, with `False < True` on the boolean. -/
def waiting_list_meta_lt (e f : WaitingList) : Bool :=
  (!e.is_priority && f.is_priority) ||
  (e.is_priority == f.is_priority &&
    (decide (e.position < f.position) ||
      (e.position == f.position && decide (e.added_at < f.added_at))))

/-- The persisted waiting list as a reader sees it: rows in `Meta.ordering`. -/
def ordered_waiting_list (db : DB) : List WaitingList :=
  sortBy waiting_list_meta_lt db.waiting_list

/-! ## Concrete instances used by the theorems -/

/-- Whether an `Except` value is a success. -/
def exceptOk {ε α : Type _} : Except ε α → Bool
  | .ok _ => true
  | .error _ => false

/-- A predictor with no loaded model artifact. -/
def predNone : PriorityPredictor :=
  { model := none, scaler := none, model_version := "v1.0.0" }

/-- A loaded regression model that always outputs 250. -/
def mdl250 : MLModel :=
  { predictFn := fun _ => 250, estimators := none, feature_importances := none }

/-- A predictor with `mdl250` loaded and no scaler. -/
def predLoaded : PriorityPredictor :=
  { model := some mdl250, scaler := none, model_version := "v1.0.0" }

/-- The result of the ML path on the all-defaults record. -/
def mlWitnessResult : PredictionResult :=
  match predLoaded.predict (.record emptyStudentRecord) false with
  | .ok r => r
  | .error _ => default

/-- A male non-disabled student. -/
def stuMale : StudentProfile :=
  { id := 1, full_name := "Ade", gender := "M", level := 100, current_gpa := none
  , distance_from_campus := none, disability_status := false
  , financial_aid_status := false }

/-- A male disabled student at level 400. -/
def stuDisabled : StudentProfile :=
  { id := 2, full_name := "Bola", gender := "M", level := 400
  , current_gpa := some (9/2), distance_from_campus := some 120
  , disability_status := true, financial_aid_status := true }

/-- Application of `stuMale`, submitted at tick 10 (the later one). -/
def app1 : Application :=
  { id := 1, student := stuMale, academic_session := "2024/2025"
  , preferred_hostel := none, status := "pending", priority_score := none
  , ai_confidence := none, gpa_factor := none, distance_factor := none
  , level_factor := none, need_factor := none, application_date := 10 }

/-- Application of `stuDisabled`, submitted at tick 5 (the earlier one). -/
def app2 : Application :=
  { id := 2, student := stuDisabled, academic_session := "2024/2025"
  , preferred_hostel := none, status := "pending", priority_score := none
  , ai_confidence := none, gpa_factor := none, distance_factor := none
  , level_factor := none, need_factor := none, application_date := 5 }

/-- A male hostel. -/
def hostelMale : Hostel := { id := 1, name := "Unity Hall", gender_type := "male" }

/-- An empty two-bed room in the male hostel. -/
def roomOne : Room :=
  { id := 1, hostel_id := 1, room_number := "101", capacity := 2
  , current_occupancy := 0, is_accessible := false, is_active := true
  , is_under_maintenance := false }

/-- State with one empty two-bed room and `app1` pending. -/
def dbOne : DB :=
  { hostels := [hostelMale]
  , rooms := [roomOne]
  , beds := [ { room_id := 1, space_number := 1, is_occupied := false, is_active := true }
            , { room_id := 1, space_number := 2, is_occupied := false, is_active := true } ]
  , applications := [app1]
  , allocations := []
  , waiting_list := []
  , audit_log := [] }

/-- State with no rooms at all and both applications pending. -/
def dbNoRooms : DB :=
  { hostels := [hostelMale], rooms := [], beds := []
  , applications := [app1, app2], allocations := [], waiting_list := []
  , audit_log := [] }

/-- A second empty room. -/
def roomTwo : Room :=
  { id := 2, hostel_id := 1, room_number := "102", capacity := 2
  , current_occupancy := 0, is_accessible := false, is_active := true
  , is_under_maintenance := false }

/-- The free first bed of `roomTwo`. -/
def bedTwoOne : BedSpace :=
  { room_id := 2, space_number := 1, is_occupied := false, is_active := true }

/-- An active allocation of `app1` to bed 1 of room 1. -/
def allocPrior : Allocation :=
  { application_id := 1, room_id := 1, bed_space := some (1, 1)
  , bed_space_number := some 1, allocated_by := "AI_System"
  , allocated_by_user := none, allocation_reason := ""
  , admin_override := false, is_active := true, cancellation_reason := "" }

/-- State where `app1` already holds `allocPrior` in room 1 and room 2 is
completely free. -/
def dbPrior : DB :=
  { hostels := [hostelMale]
  , rooms := [ { roomOne with current_occupancy := 1 }, roomTwo ]
  , beds := [ { room_id := 1, space_number := 1, is_occupied := true, is_active := true }
            , bedTwoOne ]
  , applications := [app1]
  , allocations := [allocPrior]
  , waiting_list := []
  , audit_log := [] }

/-- State where `app1` already holds an allocation row while a single free
room (room 2, one free bed) is available for it to be re-placed into. -/
def dbHeld : DB :=
  { hostels := [hostelMale]
  , rooms := [roomTwo]
  , beds := [bedTwoOne]
  , applications := [app1]
  , allocations := [allocPrior]
  , waiting_list := []
  , audit_log := [] }

/-- A student presented as a live profile object. -/
def stuEight : StudentProfile :=
  { id := 3, full_name := "Chi", gender := "M", level := 300
  , current_gpa := some (7/2), distance_from_campus := some 80
  , disability_status := false, financial_aid_status := true }

/-- The same student's data presented as a plain key-value record under its
primary keys. -/
def recEight : StudentRecord :=
  { emptyStudentRecord with
      id := some 3, gender := some "M", level := some 300, gpa := some (7/2)
    , distance := some 80, disability := some false, financial_need := some true }

/-! # Theorems

First generic facts about the stable sort, then the per-claim results. -/

theorem insertBy_perm {α : Type _} (lt : α → α → Bool) (x : α) :
    ∀ l : List α, List.Perm (insertBy lt x l) (x :: l)
  | [] => List.Perm.refl _
  | y :: ys => by
    simp only [insertBy]
    by_cases h : lt y x = true
    · rw [if_pos h]
      exact ((insertBy_perm lt x ys).cons y).trans (List.Perm.swap x y ys)
    · rw [if_neg h]

theorem sortBy_perm {α : Type _} (lt : α → α → Bool) :
    ∀ l : List α, List.Perm (sortBy lt l) l
  | [] => List.Perm.refl _
  | x :: xs => (insertBy_perm lt x (sortBy lt xs)).trans ((sortBy_perm lt xs).cons x)

theorem insertBy_pairwise {α : Type _} {lt : α → α → Bool}
    (hasym : ∀ a b, lt a b = true → lt b a = false)
    (hneg : ∀ a b c, lt a b = false → lt b c = false → lt a c = false)
    (x : α) : ∀ {l : List α}, l.Pairwise (fun a b => lt b a = false) →
      (insertBy lt x l).Pairwise (fun a b => lt b a = false)
  | [], _ => by simp [insertBy]
  | y :: ys, h => by
    rcases List.pairwise_cons.mp h with ⟨hy, hys⟩
    simp only [insertBy]
    by_cases hyx : lt y x = true
    · rw [if_pos hyx]
      refine List.pairwise_cons.mpr ⟨?_, insertBy_pairwise hasym hneg x hys⟩
      intro z hz
      rcases List.mem_cons.mp ((insertBy_perm lt x ys).mem_iff.mp hz) with rfl | hzys
      · exact hasym y z hyx
      · exact hy z hzys
    · rw [if_neg hyx]
      refine List.pairwise_cons.mpr ⟨?_, h⟩
      intro z hz
      rcases List.mem_cons.mp hz with rfl | hzys
      · cases hlt : lt z x
        · rfl
        · exact absurd hlt hyx
      · exact hneg z y x (hy z hzys)
          (by cases hlt : lt y x
              · rfl
              · exact absurd hlt hyx)

theorem sortBy_pairwise {α : Type _} {lt : α → α → Bool}
    (hasym : ∀ a b, lt a b = true → lt b a = false)
    (hneg : ∀ a b c, lt a b = false → lt b c = false → lt a c = false) :
    ∀ l : List α, (sortBy lt l).Pairwise (fun a b => lt b a = false)
  | [] => by simp [sortBy]
  | x :: xs => insertBy_pairwise hasym hneg x (sortBy_pairwise hasym hneg xs)

theorem pairwise_combine {α : Type _} {P Q R2 : α → α → Prop}
    (h : ∀ a b, P a b → Q a b → R2 a b) :
    ∀ {l : List α}, l.Pairwise P → l.Pairwise Q → l.Pairwise R2
  | [], _, _ => List.Pairwise.nil
  | x :: _, hp, hq => by
    rcases List.pairwise_cons.mp hp with ⟨hp1, hp2⟩
    rcases List.pairwise_cons.mp hq with ⟨hq1, hq2⟩
    exact List.pairwise_cons.mpr
      ⟨fun z hz => h x z (hp1 z hz) (hq1 z hz), pairwise_combine h hp2 hq2⟩

theorem sorted_perm_unique {α : Type _} {lt : α → α → Bool}
    (hasym : ∀ a b, lt a b = true → lt b a = false)
    {l1 l2 : List α} (hp : List.Perm l1 l2)
    (h1 : l1.Pairwise (fun a b => lt a b = true))
    (h2 : l2.Pairwise (fun a b => lt a b = true)) : l1 = l2 := by
  haveI : IsAntisymm α (fun a b => lt a b = true) :=
    ⟨fun a b hab hba => by rw [hasym a b hab] at hba; cases hba⟩
  exact List.eq_of_perm_of_sorted hp h1 h2

/-! ## Facts about the engine's sort comparison -/

theorem app_sort_gt_iff (scores : List (ℕ × ℚ)) (a b : Application) :
    app_sort_gt scores a b = true ↔
      (scoresGetD scores b.id 0 < scoresGetD scores a.id 0 ∨
       (scoresGetD scores a.id 0 = scoresGetD scores b.id 0 ∧
        b.application_date < a.application_date)) := by
  simp [app_sort_gt, Bool.or_eq_true, Bool.and_eq_true, decide_eq_true_eq]

theorem app_sort_gt_false_iff (scores : List (ℕ × ℚ)) (a b : Application) :
    app_sort_gt scores a b = false ↔
      (scoresGetD scores a.id 0 < scoresGetD scores b.id 0 ∨
       (scoresGetD scores a.id 0 = scoresGetD scores b.id 0 ∧
        a.application_date ≤ b.application_date)) := by
  rw [← Bool.not_eq_true, app_sort_gt_iff]
  constructor
  · intro h
    push_neg at h
    obtain ⟨h1, h2⟩ := h
    rcases lt_or_eq_of_le h1 with hlt | heq
    · exact Or.inl hlt
    · exact Or.inr ⟨heq, h2 heq⟩
  · rintro (hlt | ⟨heq, hle⟩)
    · rintro (h | ⟨he, _⟩)
      · exact lt_asymm hlt h
      · rw [he] at hlt; exact lt_irrefl _ hlt
    · rintro (h | ⟨_, hd⟩)
      · rw [heq] at h; exact lt_irrefl _ h
      · omega

theorem app_sort_gt_asym (scores : List (ℕ × ℚ)) (a b : Application)
    (h : app_sort_gt scores a b = true) : app_sort_gt scores b a = false := by
  rw [app_sort_gt_false_iff]
  rcases (app_sort_gt_iff scores a b).mp h with hlt | ⟨heq, hd⟩
  · exact Or.inl hlt
  · exact Or.inr ⟨heq.symm, hd.le⟩

theorem app_sort_gt_negtrans (scores : List (ℕ × ℚ)) (a b c : Application)
    (h1 : app_sort_gt scores a b = false) (h2 : app_sort_gt scores b c = false) :
    app_sort_gt scores a c = false := by
  rw [app_sort_gt_false_iff] at h1 h2 ⊢
  rcases h1 with hlt1 | ⟨heq1, hd1⟩ <;> rcases h2 with hlt2 | ⟨heq2, hd2⟩
  · exact Or.inl (lt_trans hlt1 hlt2)
  · exact Or.inl (heq2 ▸ hlt1)
  · exact Or.inl (heq1 ▸ hlt2)
  · exact Or.inr ⟨heq1.trans heq2, le_trans hd1 hd2⟩

/-! ## Facts about the waiting-list persisted ordering -/

theorem wl_lt_iff (e f : WaitingList) :
    waiting_list_meta_lt e f = true ↔
      ((e.is_priority = false ∧ f.is_priority = true) ∨
       (e.is_priority = f.is_priority ∧
        (e.position < f.position ∨
         (e.position = f.position ∧ e.added_at < f.added_at)))) := by
  simp [waiting_list_meta_lt, Bool.or_eq_true, Bool.and_eq_true,
    decide_eq_true_eq, Bool.not_eq_true']

theorem wl_lt_false_iff (e f : WaitingList) :
    waiting_list_meta_lt e f = false ↔
      ((f.is_priority = false ∧ e.is_priority = true) ∨
       (e.is_priority = f.is_priority ∧
        (f.position < e.position ∨
         (f.position = e.position ∧ f.added_at ≤ e.added_at)))) := by
  rw [← Bool.not_eq_true, wl_lt_iff]
  cases hep : e.is_priority <;> cases hfp : f.is_priority <;> simp_all <;> omega

theorem wl_lt_asym (e f : WaitingList) (h : waiting_list_meta_lt e f = true) :
    waiting_list_meta_lt f e = false := by
  rw [wl_lt_iff] at h
  rw [wl_lt_false_iff]
  rcases h with ⟨he, hf⟩ | ⟨heq, hnum⟩
  · exact Or.inl ⟨he, hf⟩
  · refine Or.inr ⟨heq.symm, ?_⟩
    rcases hnum with h1 | ⟨h2, h3⟩
    · exact Or.inl h1
    · exact Or.inr ⟨h2, h3.le⟩

theorem wl_lt_negtrans (e f g : WaitingList)
    (h1 : waiting_list_meta_lt e f = false) (h2 : waiting_list_meta_lt f g = false) :
    waiting_list_meta_lt e g = false := by
  rw [wl_lt_false_iff] at h1 h2 ⊢
  rcases h1 with ⟨hf1, he1⟩ | ⟨heq1, hn1⟩ <;> rcases h2 with ⟨hg2, hf2⟩ | ⟨heq2, hn2⟩
  · rw [hf2] at hf1; cases hf1
  · exact Or.inl ⟨heq2 ▸ hf1, he1⟩
  · exact Or.inl ⟨hg2, heq1.trans hf2⟩
  · exact Or.inr ⟨heq1.trans heq2, by omega⟩

theorem wl_lt_false_pri (e f : WaitingList)
    (h : waiting_list_meta_lt f e = false) :
    e.is_priority = true → f.is_priority = true := by
  intro hepri
  cases hfp : f.is_priority
  · rw [← Bool.not_eq_true, wl_lt_iff] at h
    exact absurd (Or.inl ⟨hfp, hepri⟩) h
  · rfl

/-! ## Rounding bounds -/

theorem roundHalfEven_nonneg {x : ℚ} (h : 0 ≤ x) : 0 ≤ roundHalfEven x := by
  have hf : (0 : ℤ) ≤ ⌊x⌋ := Int.floor_nonneg.mpr h
  unfold roundHalfEven
  split
  · exact hf
  · split
    · omega
    · split <;> omega

theorem roundHalfEven_le {x : ℚ} {n : ℤ} (h : x ≤ n) : roundHalfEven x ≤ n := by
  have hf : ⌊x⌋ ≤ n := by
    calc ⌊x⌋ ≤ ⌊(n : ℚ)⌋ := Int.floor_mono h
    _ = n := Int.floor_intCast n
  unfold roundHalfEven
  split
  · exact hf
  · rename_i h1
    have hhalf : (1 : ℚ)/2 ≤ x - ⌊x⌋ := not_lt.mp h1
    have hlt : ((⌊x⌋ : ℚ)) < (n : ℚ) := by
      have hfl : (⌊x⌋ : ℚ) + 1/2 ≤ x := by linarith
      linarith
    have hfn : ⌊x⌋ < n := by exact_mod_cast hlt
    split
    · omega
    · split <;> omega

theorem pyRound2_nonneg {x : ℚ} (h : 0 ≤ x) : 0 ≤ pyRound2 x := by
  unfold pyRound2
  have h1 : (0 : ℤ) ≤ roundHalfEven (x * 100) :=
    roundHalfEven_nonneg (by linarith)
  have h2 : (0 : ℚ) ≤ (roundHalfEven (x * 100) : ℚ) := by exact_mod_cast h1
  linarith

theorem pyRound2_le_100 {x : ℚ} (h : x ≤ 100) : pyRound2 x ≤ 100 := by
  unfold pyRound2
  have h1 : roundHalfEven (x * 100) ≤ (10000 : ℤ) :=
    roundHalfEven_le (by push_cast; linarith)
  have h2 : (roundHalfEven (x * 100) : ℚ) ≤ 10000 := by exact_mod_cast h1
  linarith

/-! ## Facts about the predictor -/

theorem except_bind_err {ε α β : Type _} (e : ε) (f : α → Except ε β) :
    (Except.error e >>= f) = Except.error e := rfl

theorem except_bind_ok {ε α β : Type _} (a : α) (f : α → Except ε β) :
    (Except.ok a >>= f : Except ε β) = f a := rfl

theorem except_pure {ε α : Type _} (a : α) :
    (pure a : Except ε α) = Except.ok a := rfl

theorem generate_ok_range (f : PyFeatures) (s : ℚ)
    (h : generate_synthetic_priority_score f = .ok s) : 0 ≤ s ∧ s ≤ 100 := by
  cases f with
  | obj p => simp [generate_synthetic_priority_score] at h
  | dict d =>
    simp only [generate_synthetic_priority_score] at h
    cases h1 : dictGet d "gpa_normalized" with
    | error e => rw [h1, except_bind_err] at h; simp at h
    | ok g =>
      rw [h1] at h; simp only [except_bind_ok] at h
      cases h2 : dictGet d "distance_transformed" with
      | error e => rw [h2, except_bind_err] at h; simp at h
      | ok dt =>
        rw [h2] at h; simp only [except_bind_ok] at h
        cases h3 : dictGet d "level_encoded" with
        | error e => rw [h3, except_bind_err] at h; simp at h
        | ok le =>
          rw [h3] at h; simp only [except_bind_ok] at h
          cases h4 : dictGet d "disability_flag" with
          | error e => rw [h4, except_bind_err] at h; simp at h
          | ok df =>
            rw [h4] at h; simp only [except_bind_ok] at h
            cases h5 : dictGet d "financial_aid_flag" with
            | error e => rw [h5, except_bind_err] at h; simp at h
            | ok ff =>
              rw [h5] at h; simp only [except_bind_ok, except_pure] at h
              injection h with h
              refine ⟨?_, ?_⟩
              · rw [← h]; exact le_max_left 0 _
              · rw [← h]
                exact max_le (by norm_num) (min_le_left _ _)

theorem ml_predict_ok_score (pred : PriorityPredictor) (mdl : MLModel)
    (f : PyFeatures) (r : PredictionResult) (h : ml_predict pred mdl f = .ok r) :
    ∃ raw : ℚ, r.priority_score =
      pyRound2 (max MIN_PRIORITY_SCORE (min MAX_PRIORITY_SCORE raw)) := by
  unfold ml_predict at h
  cases hX : FeatureEngineerV2.prepare_model_input f with
  | error e => rw [hX, except_bind_err] at h; simp at h
  | ok X0 =>
    rw [hX] at h
    simp only [except_bind_ok, except_pure] at h
    injection h with h
    exact ⟨_, by rw [← h]⟩

theorem ml_predict_error_prepare (pred : PriorityPredictor) (mdl : MLModel)
    (f : PyFeatures) (e : PyExc) (h : ml_predict pred mdl f = .error e) :
    FeatureEngineerV2.prepare_model_input f = .error e := by
  unfold ml_predict at h
  cases hX : FeatureEngineerV2.prepare_model_input f with
  | error e0 => rw [hX, except_bind_err] at h; injection h with h; rw [h]
  | ok X0 => rw [hX] at h; simp only [except_bind_ok, except_pure] at h; simp at h

theorem domain_knowledge_ok_score (f : PyFeatures) (r : PredictionResult)
    (h : domain_knowledge_predict f = .ok r) :
    ∃ s : ℚ, generate_synthetic_priority_score f = .ok s ∧
      r.priority_score = pyRound2 s := by
  unfold domain_knowledge_predict at h
  cases hs : generate_synthetic_priority_score f with
  | error e => rw [hs, except_bind_err] at h; simp at h
  | ok s =>
    rw [hs] at h
    simp only [except_bind_ok, except_pure] at h
    injection h with h
    exact ⟨s, rfl, by rw [← h]⟩

theorem predict_ok_elim (pred : PriorityPredictor) (input : PredictInput)
    (udk : Bool) (r : PredictionResult) (h : pred.predict input udk = .ok r) :
    (∃ mdl, ml_predict pred mdl (extract_for_predict input) = .ok r) ∨
      domain_knowledge_predict (extract_for_predict input) = .ok r := by
  unfold PriorityPredictor.predict at h
  cases hm : pred.model with
  | none =>
    rw [hm] at h
    cases udk with
    | false => simp at h
    | true => exact Or.inr h
  | some mdl =>
    rw [hm] at h
    dsimp only at h
    cases hml : ml_predict pred mdl (extract_for_predict input) with
    | ok r0 =>
      rw [hml] at h
      dsimp only at h
      injection h with h
      exact Or.inl ⟨mdl, by rw [hml, h]⟩
    | error e =>
      rw [hml] at h
      dsimp only at h
      cases udk with
      | false => simp at h
      | true => exact Or.inr h

theorem predict_profile_isError (pred : PriorityPredictor) (p : StudentProfile)
    (udk : Bool) : ∃ e, pred.predict (.profile p) udk = .error e := by
  cases hm : pred.model with
  | none =>
    cases udk with
    | false =>
      exact ⟨.modelNotTrainedError "No trained model available",
        by simp [PriorityPredictor.predict, hm]⟩
    | true =>
      exact ⟨.typeError, by simp [PriorityPredictor.predict, hm, extract_for_predict,
        domain_knowledge_predict, generate_synthetic_priority_score, except_bind_err]⟩
  | some mdl =>
    have hml : ml_predict pred mdl (.obj p) = .error .typeError := rfl
    cases udk with
    | false =>
      exact ⟨.modelNotTrainedError "ML model prediction failed and fallback disabled",
        by simp [PriorityPredictor.predict, hm, extract_for_predict, hml]⟩
    | true =>
      exact ⟨.typeError, by simp [PriorityPredictor.predict, hm, extract_for_predict,
        hml, domain_knowledge_predict, generate_synthetic_priority_score,
        except_bind_err]⟩

theorem generate_on_v1 (g le' dt df ff ss : ℚ) :
    generate_synthetic_priority_score (.dict
      [ ("gpa_normalized", g), ("level_encoded", le')
      , ("distance_transformed", dt), ("disability_flag", df)
      , ("financial_aid_flag", ff), ("seniority_score", ss) ]) =
    .ok (max 0 (min 100
      (g * (2/5) * 100 + dt * (3/10) * 100 + le' / 5 * (1/5) * 100 +
        (if df + ff > 0 then (1 : ℚ) else 0) * (1/10) * 100))) := rfl

/-- C9: with no trained model loaded and the fallback flag false, `predict`
fails with the dedicated `ModelNotTrainedError` — a constructor of the
exception type distinct from every other failure kind — and returns no
score. -/
theorem C9_model_unavailable (scaler : Option (List ℚ → List ℚ)) (ver : String)
    (input : PredictInput) :
    PriorityPredictor.predict
        { model := none, scaler := scaler, model_version := ver } input false =
      .error (.modelNotTrainedError "No trained model available")
    ∧ (∀ m k, PyExc.modelNotTrainedError m ≠ PyExc.keyError k)
    ∧ (∀ m, PyExc.modelNotTrainedError m ≠ PyExc.typeError)
    ∧ (∀ m, PyExc.modelNotTrainedError m ≠ PyExc.integrityError) := by
  refine ⟨?_, fun m k h => PyExc.noConfusion h, fun m h => PyExc.noConfusion h,
    fun m h => PyExc.noConfusion h⟩
  cases input <;> rfl

/-- C6: the domain-knowledge fallback score equals the clamped weighted sum:
40 points times the normalized GPA, 30 times the transformed distance, 20
times one fifth of the encoded level, and a full 10 points whenever the
disability flag or the financial-aid flag (or both) is set. -/
theorem C6_domain_knowledge_formula (gpa distance : Option ℚ) (lvl : Option ℕ)
    (dis fin : Option Bool) :
    generate_synthetic_priority_score
        (.dict (FeatureEngineer.extract_features_from_dict
          ⟨gpa, lvl, distance, dis, fin⟩)) =
      .ok (max 0 (min 100
        (FeatureEngineer.normalize_gpa gpa * 40
          + FeatureEngineer.transform_distance distance * 30
          + (FeatureEngineer.encode_level (lvl.getD 100) : ℚ) / 5 * 20
          + (if dis.getD false || fin.getD false then 10 else 0)))) := by
  have hx : FeatureEngineer.extract_features_from_dict ⟨gpa, lvl, distance, dis, fin⟩ =
      [ ("gpa_normalized", FeatureEngineer.normalize_gpa gpa)
      , ("level_encoded", (FeatureEngineer.encode_level (lvl.getD 100) : ℚ))
      , ("distance_transformed", FeatureEngineer.transform_distance distance)
      , ("disability_flag", (FeatureEngineer.encode_binary (dis.getD false) : ℚ))
      , ("financial_aid_flag", (FeatureEngineer.encode_binary (fin.getD false) : ℚ))
      , ("seniority_score",
          FeatureEngineer.calculate_seniority_score (lvl.getD 100) gpa) ] := rfl
  rw [hx, generate_on_v1]
  cases hbd : dis.getD false <;> cases hbf : fin.getD false <;>
    simp only [FeatureEngineer.encode_binary, if_true, if_false, Nat.cast_zero,
      Nat.cast_one, Bool.or_self, Bool.false_or, Bool.or_false, Bool.or_true,
      Bool.true_or] <;>
    norm_num <;>
    (congr 1; congr 1; ring)

/-- C7: every successful `predict` result carries a priority score in
[0, 100] (the ML path clamps to `[MIN_PRIORITY_SCORE, MAX_PRIORITY_SCORE]`
and the fallback clamps to [0, 100]); the fallback yields exactly 100 at the
extreme input distance 100000 km, GPA 5.0, level 500, all flags true. -/
theorem C7_score_clamp :
    (∀ (pred : PriorityPredictor) (input : PredictInput) (udk : Bool)
        (r : PredictionResult), pred.predict input udk = .ok r →
        0 ≤ r.priority_score ∧ r.priority_score ≤ 100)
    ∧ generate_synthetic_priority_score
        (.dict (FeatureEngineer.extract_features_from_dict
          ⟨some 5, some 500, some 100000, some true, some true⟩)) = .ok 100 := by
  constructor
  · intro pred input udk r h
    rcases predict_ok_elim pred input udk r h with ⟨mdl, hml⟩ | hdk
    · rcases ml_predict_ok_score pred mdl _ r hml with ⟨raw, hr⟩
      rw [hr]
      constructor
      · refine pyRound2_nonneg ?_
        simp only [MIN_PRIORITY_SCORE]
        exact le_max_left _ _
      · refine pyRound2_le_100 ?_
        simp only [MIN_PRIORITY_SCORE, MAX_PRIORITY_SCORE]
        exact max_le (by norm_num) (min_le_left _ _)
    · rcases domain_knowledge_ok_score _ r hdk with ⟨s, hs, hr⟩
      rcases generate_ok_range _ s hs with ⟨h0, h100⟩
      rw [hr]
      exact ⟨pyRound2_nonneg h0, pyRound2_le_100 h100⟩
  · have hx : FeatureEngineer.extract_features_from_dict
        ⟨some 5, some 500, some 100000, some true, some true⟩ =
        [ ("gpa_normalized", FeatureEngineer.normalize_gpa (some 5))
        , ("level_encoded", (FeatureEngineer.encode_level 500 : ℚ))
        , ("distance_transformed", FeatureEngineer.transform_distance (some 100000))
        , ("disability_flag", (FeatureEngineer.encode_binary true : ℚ))
        , ("financial_aid_flag", (FeatureEngineer.encode_binary true : ℚ))
        , ("seniority_score", FeatureEngineer.calculate_seniority_score 500 (some 5)) ]
        := rfl
    rw [hx, generate_on_v1]
    norm_num [FeatureEngineer.normalize_gpa, FeatureEngineer.transform_distance,
      FeatureEngineer.encode_level, FeatureEngineer.encode_binary,
      FeatureEngineer.max_distance, MIN_GPA, MAX_GPA, ALLOCATION_CONSTRAINTS]

/-- Witness for C7: the ML path on the all-defaults record with a model that
outputs 250 clamps to a score of 100, inside [0, 100]. -/
theorem C7_score_clamp_witness :
    0 ≤ mlWitnessResult.priority_score ∧ mlWitnessResult.priority_score ≤ 100 :=
  C7_score_clamp.1 predLoaded (.record emptyStudentRecord) false mlWitnessResult rfl

/-! ## Facts about the engine loop -/

theorem bed_allocate_waiting_list (db : DB) (rid sn : ℕ) :
    ((BedSpace.allocate db rid sn).1).waiting_list = db.waiting_list := by
  unfold BedSpace.allocate
  split
  · split
    · rfl
    · rfl
  · rfl

theorem allocate_single_waiting_list (db : DB) (app : Application)
    (rbg : String → List Room) :
    ((allocate_single db app rbg).1).waiting_list = db.waiting_list := by
  unfold allocate_single
  dsimp only
  repeat' split
  all_goals first
  | rfl
  | exact bed_allocate_waiting_list db _ _

theorem allocation_create_waiting_list (db : DB) (al : Allocation) (db' : DB)
    (h : allocation_create db al = .ok db') : db'.waiting_list = db.waiting_list := by
  unfold allocation_create at h
  split at h
  · simp at h
  · injection h with h
    rw [← h]

theorem allocate_batch_step_waiting_list (rbg : String → List Room) (db : DB)
    (app : Application) :
    ((allocate_batch_step rbg db app).1).waiting_list = db.waiting_list := by
  unfold allocate_batch_step
  dsimp only
  split
  · split
    · rename_i db2 heq
      exact (allocation_create_waiting_list _ _ _ heq).trans
        (allocate_single_waiting_list db app rbg)
    · exact allocate_single_waiting_list db app rbg
  · exact allocate_single_waiting_list db app rbg

theorem allocate_batch_loop_waiting_list (rbg : String → List Room) :
    ∀ (l : List Application) (db : DB),
      ((allocate_batch_loop rbg db l).1).waiting_list = db.waiting_list
  | [], _ => rfl
  | app :: rest, db => by
    simp only [allocate_batch_loop]
    exact (allocate_batch_loop_waiting_list rbg rest _).trans
      (allocate_batch_step_waiting_list rbg db app)

theorem calculate_priority_scores_waiting_list (pred : PriorityPredictor) :
    ∀ (l : List Application) (db : DB),
      ((calculate_priority_scores pred db l).1).waiting_list = db.waiting_list
  | [], _ => rfl
  | app :: rest, db => by
    simp only [calculate_priority_scores]
    cases hp : pred.predict (.profile app.student) true with
    | ok prediction =>
      dsimp only
      exact calculate_priority_scores_waiting_list pred rest _
    | error e =>
      dsimp only
      exact calculate_priority_scores_waiting_list pred rest _

/-- C3 (the code violates it): `successful.append(result)` runs before the
fallible `Allocation.objects.create`.  Running `allocate_batch` on the single
application `app1`, which already holds an allocation row (`dbHeld`) but for
which a free bed exists in room 2, places the applicant, appends the result
to `successful`, and then — the create having raised `IntegrityError` — the
`except` handler appends the same applicant to the waiting list too: the run
reports 1 successful result AND 1 waiting-list entry for a 1-application
input (1 + 1 ≠ 1), with the same application id in both lists. -/
theorem C3_double_count :
    (allocate_batch predNone dbHeld [app1] "2024/2025").successful.length = 1
    ∧ (allocate_batch predNone dbHeld [app1] "2024/2025").waiting_list.length = 1
    ∧ (allocate_batch predNone dbHeld [app1] "2024/2025").successful.map
        (fun r => r.application_id) = [1]
    ∧ (allocate_batch predNone dbHeld [app1] "2024/2025").waiting_list.map
        (fun a => a.id) = [1]
    ∧ (dbHeld.allocations.filter
        (fun al => al.application_id == app1.id)).length = 1 :=
  ⟨rfl, rfl, rfl, rfl, rfl⟩

/-- C1 (the code violates it): after allocating one male applicant into an
empty two-bed room, exactly one bed space is occupied but the room's
`current_occupancy` reads 2 — `BedSpace.allocate` increments the counter and
the engine increments it again — so `current_occupancy` does not equal the
occupied-bed count after the placement step. -/
theorem C1_occupancy_out_of_sync :
    ((allocate_batch predNone dbOne [app1] "2024/2025").db.findRoom 1).map
        (fun r => r.current_occupancy) = some 2
    ∧ (allocate_batch predNone dbOne [app1] "2024/2025").db.occupiedBedCount 1 = 1
    ∧ (allocate_batch predNone dbOne [app1] "2024/2025").successful.length = 1 :=
  ⟨rfl, rfl, rfl⟩

/-- C4 counterexample: with no rooms, both applicants are waitlisted; the
disabled (priority) applicant `app2` gets position 2 after the non-priority
`app1`, and the persisted `Meta.ordering` lists the non-priority entry first
— priority entries are neither positioned first nor ordered first. -/
theorem C4_priority_counterexample :
    (allocate_batch predNone dbNoRooms [app1, app2] "2024/2025").db.waiting_list.map
        (fun e => (e.application_id, e.position, e.is_priority)) =
      [(1, 1, false), (2, 2, true)]
    ∧ (ordered_waiting_list
        (allocate_batch predNone dbNoRooms [app1, app2] "2024/2025").db).map
        (fun e => (e.application_id, e.is_priority)) = [(1, false), (2, true)]
    ∧ app2.student.disability_status = true
    ∧ app1.student.disability_status = false :=
  ⟨rfl, rfl, rfl, rfl⟩

/-- C4 as amended: waiting-list positions are 1-indexed in the order the
waiting list was accumulated (the descending score/submission processing
order), without moving priority entries forward; `is_priority` records the
disability flag; and the persisted ordering is ascending on `is_priority` —
non-priority entries first — then position, then arrival tick. -/
theorem C4_waiting_list_contract (pred : PriorityPredictor) (db : DB)
    (apps : List Application) (session : String) :
    (allocate_batch pred db apps session).db.waiting_list =
        db.waiting_list ++
          waiting_list_entries (allocate_batch pred db apps session).waiting_list
    ∧ (∀ w : List Application,
        (waiting_list_entries w).map (fun e => e.position) =
            (List.range w.length).map (fun i => i + 1)
        ∧ (waiting_list_entries w).map (fun e => e.is_priority) =
            w.map (fun a => a.student.disability_status)
        ∧ (waiting_list_entries w).map (fun e => e.application_id) =
            w.map (fun a => a.id))
    ∧ ∀ db2 : DB, (ordered_waiting_list db2).Pairwise
        (fun e f => e.is_priority = true → f.is_priority = true) := by
  refine ⟨?_, ?_, ?_⟩
  · show (create_waiting_list_entries _ _).waiting_list = _
    unfold create_waiting_list_entries
    rw [allocate_batch_loop_waiting_list, calculate_priority_scores_waiting_list]
    rfl
  · intro w
    refine ⟨?_, ?_, ?_⟩
    · unfold waiting_list_entries
      rw [List.map_map]
      have hc : ((fun e : WaitingList => e.position) ∘
          (fun p : ℕ × Application =>
            ({ application_id := p.2.id, position := p.1 + 1
             , is_priority := p.2.student.disability_status
             , added_at := p.1 + 1 } : WaitingList))) =
          ((fun i => i + 1) ∘ Prod.fst) := rfl
      rw [hc, ← List.map_map, List.enum_map_fst]
    · unfold waiting_list_entries
      rw [List.map_map]
      have hc : ((fun e : WaitingList => e.is_priority) ∘
          (fun p : ℕ × Application =>
            ({ application_id := p.2.id, position := p.1 + 1
             , is_priority := p.2.student.disability_status
             , added_at := p.1 + 1 } : WaitingList))) =
          ((fun a : Application => a.student.disability_status) ∘ Prod.snd) := rfl
      rw [hc, ← List.map_map, List.enum_map_snd]
    · unfold waiting_list_entries
      rw [List.map_map]
      have hc : ((fun e : WaitingList => e.application_id) ∘
          (fun p : ℕ × Application =>
            ({ application_id := p.2.id, position := p.1 + 1
             , is_priority := p.2.student.disability_status
             , added_at := p.1 + 1 } : WaitingList))) =
          ((fun a : Application => a.id) ∘ Prod.snd) := rfl
      rw [hc, ← List.map_map, List.enum_map_snd]
  · intro db2
    exact (sortBy_pairwise wl_lt_asym wl_lt_negtrans db2.waiting_list).imp
      (fun h => wl_lt_false_pri _ _ h)

/-- C5 (the code violates it): an override of an application that already
holds an active allocation does not cancel-and-replace it — the cancelled row
still occupies the one-to-one slot, so creating the new allocation raises
`IntegrityError` and the transaction rolls back. -/
theorem C5_override_integrity_error :
    manual_override dbPrior app1 roomTwo (some bedTwoOne) none "relocate" =
      .error .integrityError
    ∧ (dbPrior.allocations.filter
        (fun al => al.application_id == app1.id && al.is_active)).length = 1
    ∧ bedTwoOne.is_occupied = false :=
  ⟨rfl, rfl, rfl⟩

/-- C10 (the code violates it): the engine passes the live profile object to
`predict`, which never feature-extracts that shape and always raises, so the
catch-all records score 0.0 for every application — the disability floor of
95 (and the level-400/500 boost) in `calculate_priority_scores` is
unreachable: the disabled level-400 student `app2` is scored 0, not ≥ 95. -/
theorem C10_disability_floor_unreachable (pred : PriorityPredictor) (db : DB) :
    (calculate_priority_scores pred db [app2]).2 = [(2, 0)]
    ∧ app2.student.disability_status = true
    ∧ app2.student.level = 400
    ∧ ¬((95 : ℚ) ≤ 0) := by
  refine ⟨?_, rfl, rfl, by norm_num⟩
  obtain ⟨e, he⟩ := predict_profile_isError pred app2.student true
  simp only [calculate_priority_scores, he]
  rfl

/-- C2 counterexample: two applications with equal scores (50 each) come out
of step 2 with the later-submitted `app1` (tick 10) before the
earlier-submitted `app2` (tick 5) — `reverse=True` reverses the date
tie-break too, so the earlier submission does not win. -/
theorem C2_tie_break_counterexample :
    (sort_applications [(1, 50), (2, 50)] [app2, app1]).map (fun a => a.id) = [1, 2]
    ∧ scoresGetD [(1, 50), (2, 50)] app1.id 0 = scoresGetD [(1, 50), (2, 50)] app2.id 0
    ∧ app2.application_date < app1.application_date := by
  refine ⟨rfl, rfl, by decide⟩

/-- C2 as amended: step 2 is the stable descending lexicographic sort on
(score, submission time): the output is a permutation of the input, every
earlier element has a strictly greater score or an equal score and a
later-or-equal submission time (ties in score are won by the LATER
submission), and for distinct (score, time) keys the output is the unique
such permutation. -/
theorem C2_sort_contract (scores : List (ℕ × ℚ)) (apps : List Application) :
    List.Perm (sort_applications scores apps) apps
    ∧ (sort_applications scores apps).Pairwise (fun a b =>
        scoresGetD scores b.id 0 < scoresGetD scores a.id 0 ∨
        (scoresGetD scores a.id 0 = scoresGetD scores b.id 0 ∧
          b.application_date ≤ a.application_date))
    ∧ (apps.Pairwise (fun a b =>
          ¬(scoresGetD scores a.id 0 = scoresGetD scores b.id 0 ∧
            a.application_date = b.application_date)) →
        ∀ l2 : List Application, List.Perm l2 apps →
          l2.Pairwise (fun a b =>
            scoresGetD scores b.id 0 < scoresGetD scores a.id 0 ∨
            (scoresGetD scores a.id 0 = scoresGetD scores b.id 0 ∧
              b.application_date ≤ a.application_date)) →
          l2 = sort_applications scores apps) := by
  have hperm : List.Perm (sort_applications scores apps) apps :=
    sortBy_perm (app_sort_gt scores) apps
  have hconv : ∀ a b : Application, app_sort_gt scores b a = false →
      (scoresGetD scores b.id 0 < scoresGetD scores a.id 0 ∨
       (scoresGetD scores a.id 0 = scoresGetD scores b.id 0 ∧
        b.application_date ≤ a.application_date)) := by
    intro a b h
    rcases (app_sort_gt_false_iff scores b a).mp h with h1 | ⟨h2, h3⟩
    · exact Or.inl h1
    · exact Or.inr ⟨h2.symm, h3⟩
  have hpw : (sort_applications scores apps).Pairwise (fun a b =>
      scoresGetD scores b.id 0 < scoresGetD scores a.id 0 ∨
      (scoresGetD scores a.id 0 = scoresGetD scores b.id 0 ∧
        b.application_date ≤ a.application_date)) :=
    (sortBy_pairwise (app_sort_gt_asym scores) (app_sort_gt_negtrans scores)
      apps).imp (fun h => hconv _ _ h)
  refine ⟨hperm, hpw, ?_⟩
  intro hkeys l2 hl2perm hl2pw
  have hstrict : ∀ a b : Application,
      ¬(scoresGetD scores a.id 0 = scoresGetD scores b.id 0 ∧
        a.application_date = b.application_date) →
      (scoresGetD scores b.id 0 < scoresGetD scores a.id 0 ∨
       (scoresGetD scores a.id 0 = scoresGetD scores b.id 0 ∧
        b.application_date ≤ a.application_date)) →
      app_sort_gt scores a b = true := by
    intro a b hne hnice
    rw [app_sort_gt_iff]
    rcases hnice with h1 | ⟨h2, h3⟩
    · exact Or.inl h1
    · refine Or.inr ⟨h2, ?_⟩
      rcases lt_or_eq_of_le h3 with h4 | h4
      · exact h4
      · exact absurd ⟨h2, h4.symm⟩ hne
  have hsymm : ∀ {a b : Application},
      ¬(scoresGetD scores a.id 0 = scoresGetD scores b.id 0 ∧
        a.application_date = b.application_date) →
      ¬(scoresGetD scores b.id 0 = scoresGetD scores a.id 0 ∧
        b.application_date = a.application_date) :=
    fun h hc => h ⟨hc.1.symm, hc.2.symm⟩
  have hkeys2 := (hl2perm.pairwise_iff hsymm).mpr hkeys
  have hkeysSorted := (hperm.pairwise_iff hsymm).mpr hkeys
  have hstrict2 : l2.Pairwise (fun a b => app_sort_gt scores a b = true) :=
    pairwise_combine (fun a b hne hnice => hstrict a b hne hnice) hkeys2 hl2pw
  have hstrictSorted : (sort_applications scores apps).Pairwise
      (fun a b => app_sort_gt scores a b = true) :=
    pairwise_combine (fun a b hne hnice => hstrict a b hne hnice) hkeysSorted hpw
  exact sorted_perm_unique (app_sort_gt_asym scores)
    (hl2perm.trans hperm.symm) hstrict2 hstrictSorted

/-- Witness for C2 at distinct scores: sorting [app2, app1] under scores
60 and 40 puts app1 (score 60) first, and that order is unique. -/
theorem C2_sort_contract_witness :
    [app1, app2] = sort_applications [(1, 60), (2, 40)] [app2, app1] :=
  (C2_sort_contract [(1, 60), (2, 40)] [app2, app1]).2.2 (by decide)
    [app1, app2] (List.Perm.swap app2 app1 []) (by decide)

/-- C8 counterexample: the same student data presented as a plain record
predicts successfully, but presented as a live profile object it fails —
`predict` does not apply identical transformations to the two shapes. -/
theorem C8_shape_divergence :
    exceptOk (predLoaded.predict (.record recEight) true) = true
    ∧ exceptOk (predLoaded.predict (.profile stuEight) true) = false
    ∧ recEight.gpa = stuEight.current_gpa
    ∧ recEight.distance = stuEight.distance_from_campus
    ∧ recEight.level = some ((stuEight.level : ℕ) : ℚ)
    ∧ recEight.gender = some stuEight.gender
    ∧ recEight.disability = some stuEight.disability_status
    ∧ recEight.financial_need = some stuEight.financial_aid_status :=
  ⟨rfl, rfl, rfl, rfl, rfl, rfl, rfl, rfl⟩

/-- C8 as amended: `predict` feature-extracts only plain key-value records
(via `FeatureEngineerV2.extract_features_from_dict`, with the fallback
default for every absent key); a live profile object is passed through
unextracted and `predict` always fails on it instead of producing the same
vector and result. -/
theorem C8_record_extraction_only :
    (∀ (pred : PriorityPredictor) (p : StudentProfile) (udk : Bool)
        (r : PredictionResult), pred.predict (.profile p) udk ≠ .ok r)
    ∧ (∀ (pred : PriorityPredictor) (mdl : MLModel) (d : StudentRecord) (udk : Bool),
        pred.model = some mdl →
        pred.predict (.record d) udk =
          ml_predict pred mdl (.dict (FeatureEngineerV2.extract_features_from_dict d)))
    ∧ FeatureEngineerV2.extract_features_from_dict emptyStudentRecord =
        [ ("level", 100), ("gpa", 3), ("distance_km", 50), ("disability", 0)
        , ("medical_condition", 0), ("financial_need", 0), ("first_generation", 0)
        , ("international", 0), ("previous_housing", 0), ("semesters_completed", 0)
        , ("academic_probation", 0), ("family_size", 4), ("family_income_bracket", 5)
        , ("employment_hours", 0), ("gender_M", 1), ("gender_F", 0)
        , ("gender_Other", 0) ] := by
  refine ⟨?_, ?_, ?_⟩
  · intro pred p udk r hok
    obtain ⟨e, he⟩ := predict_profile_isError pred p udk
    rw [he] at hok
    exact Except.noConfusion hok
  · intro pred mdl d udk hm
    obtain ⟨X, hX⟩ : ∃ X, FeatureEngineerV2.prepare_model_input
        (.dict (FeatureEngineerV2.extract_features_from_dict d)) = .ok X := ⟨_, rfl⟩
    obtain ⟨r, hr⟩ : ∃ r, ml_predict pred mdl
        (.dict (FeatureEngineerV2.extract_features_from_dict d)) = .ok r := by
      unfold ml_predict
      rw [hX]
      exact ⟨_, rfl⟩
    unfold PriorityPredictor.predict
    rw [hm]
    dsimp only [extract_for_predict]
    rw [hr]
  · norm_num [FeatureEngineerV2.extract_features_from_dict, emptyStudentRecord,
      FeatureEngineerV2.max_distance, ALLOCATION_CONSTRAINTS]
    decide

/-- Witness for C8 with the loaded predictor and the all-defaults record. -/
theorem C8_record_extraction_only_witness :
    predLoaded.predict (.record emptyStudentRecord) true =
      ml_predict predLoaded mdl250
        (.dict (FeatureEngineerV2.extract_features_from_dict emptyStudentRecord)) :=
  C8_record_extraction_only.2.1 predLoaded mdl250 emptyStudentRecord true rfl

end SmartAlloc
